import Mathlib

/-!
Shallow embedding of the `photo360` Go package (stormfiber/ephoto360).

The package drives a three-stage HTTP pipeline against a photo-effect
website: fetch the effect page, submit the form data, create the image.
External collaborators (HTTP transport, HTML parsing, JSON decoding, the
secure random source) are modelled as explicit oracle parameters; the
package's own control flow, string handling and data assembly are
translated function by function from the source.
-/

namespace Photo360Spec

/-- Go `error` values, tagged by provenance so that errors produced by the
`encoding/json` library, the network transport and the package's own
`errors.New` messages remain distinguishable (as they are in Go, where a
`*json.SyntaxError` is never equal to an `errors.New` string error). -/
inductive GoErr where
  | msg (s : String)
  | net (s : String)
  | jsonErr (s : String)
  | randErr (s : String)
  | wrap (ctx : String) (e : GoErr)
deriving DecidableEq, Repr

instance exceptDecEq {ε α : Type} [DecidableEq ε] [DecidableEq α] :
    DecidableEq (Except ε α) := fun a b =>
  match a, b with
  | .error e, .error f =>
    if h : e = f then isTrue (by rw [h]) else isFalse (by simp [h])
  | .error _, .ok _ => isFalse (by simp)
  | .ok _, .error _ => isFalse (by simp)
  | .ok x, .ok y =>
    if h : x = y then isTrue (by rw [h]) else isFalse (by simp [h])

/-- A value stored in the Go `map[string]interface{}` form-data map:
the package only ever stores strings and ints there. -/
inductive GoValue where
  | str (s : String)
  | int (n : Int)
deriving DecidableEq, Repr

/-- `fmt.Sprintf("%v", value)` for the two value kinds actually stored. -/
def goFmtValue : GoValue → String
  | .str s => s
  | .int n => toString n

/-- struct `Photo360`. The Go `map[string]interface{}` is modelled as an
association list (built with distinct keys by `prepareFormData`). -/
structure Photo360 where
  EffectPageURL : String
  InputText : List String
  FormData : List (String × GoValue)
deriving DecidableEq, Repr

/-- struct `Photo360Result`. -/
structure Photo360Result where
  Status : Bool
  ImageURL : String
  SessionID : String
deriving DecidableEq, Repr

/-- The dynamic type of the decoded `session_id` JSON field
(`interface{}` in Go). JSON numbers decode to Go `float64`, modelled
exactly as rational values; the `int` case mirrors the switch arm in the
source; `other` covers any further dynamic type, carrying its
`fmt.Sprintf("%v", v)` rendering. -/
inductive JsonSessionID where
  | str (s : String)
  | float (q : ℚ)
  | int (n : Int)
  | other (rendered : String)
deriving DecidableEq, Repr

/-- struct `ImageCreationResponse`. -/
structure ImageCreationResponse where
  Success : Bool
  Image : String
  FullsizeImage : String
  SessionID : JsonSessionID
deriving DecidableEq, Repr

/-- Nested `radio0` object of struct `FormDataValues`. -/
structure Radio0Value where
  Radio : String
deriving DecidableEq, Repr

/-- struct `FormDataValues` (the decoded generated form value). -/
structure FormDataValues where
  ID : String
  Token : String
  BuildServer : String
  BuildServerID : String
  Radio0 : Radio0Value
  Text : List String
deriving DecidableEq, Repr

/-- `sub` occurs as a contiguous run starting at some position of the
character list. -/
def goContainsChars (sub : List Char) : List Char → Bool
  | [] => sub.isEmpty
  | c :: cs => sub.isPrefixOf (c :: cs) || goContainsChars sub cs

/-- `strings.Contains s sub` (Go): true iff `sub` occurs in `s`;
the empty substring occurs in every string. -/
def goContains (s sub : String) : Bool :=
  goContainsChars sub.data s.data

/-- `strings.TrimSpace` (Go): strip leading and trailing whitespace. -/
def goTrimSpace (s : String) : String :=
  String.mk
    (((s.data.dropWhile Char.isWhitespace).reverse.dropWhile Char.isWhitespace).reverse)

/-- The default effect page URL substituted for the empty string. -/
def defaultEffectPageURL : String :=
  "https://en.ephoto360.com/handwritten-text-on-foggy-glass-online-680.html"

/-- The construction-time validation error message. -/
def invalidURLMsg : String := "invalid URL: Must be a photo360.com URL"

/-- `NewPhoto360`: empty URL is replaced by the default effect URL, then
the URL must contain `photo360.com`; the fresh client seeds one default
text input and an empty form-data map. -/
def NewPhoto360 (effectPageURL : String) : Except GoErr Photo360 :=
  let u := if effectPageURL = "" then defaultEffectPageURL else effectPageURL
  if goContains u "photo360.com" then
    .ok { EffectPageURL := u, InputText := ["Faris"], FormData := [] }
  else
    .error (.msg invalidURLMsg)

/-- `SetName`: replaces the text-input list with a singleton. -/
def SetName (p : Photo360) (name : String) : Photo360 :=
  { p with InputText := [name] }

/-- `SetNames`: replaces the text-input list wholesale. -/
def SetNames (p : Photo360) (names : List String) : Photo360 :=
  { p with InputText := names }

/-- Digits-only decimal parse used by `goAtoi`; `none` unless the list is
non-empty and all characters are ASCII digits. -/
def digitsToNat : List Char → Option Nat
  | [] => none
  | cs =>
    if cs.all Char.isDigit then
      some (cs.foldl (fun a c => a * 10 + (c.toNat - 48)) 0)
    else none

def int64Max : Int := 9223372036854775807
def int64Min : Int := -9223372036854775808

/-- `strconv.Atoi` on a 64-bit platform: optional single sign, at least
one digit, value within the int64 range (out-of-range input is an error,
which the package treats the same as a parse failure). -/
def goAtoi (s : String) : Option Int :=
  match s.data with
  | '+' :: rest =>
    (digitsToNat rest).bind fun n =>
      if (n : Int) ≤ int64Max then some (n : Int) else none
  | '-' :: rest =>
    (digitsToNat rest).bind fun n =>
      if int64Min ≤ -(n : Int) then some (-(n : Int)) else none
  | cs =>
    (digitsToNat cs).bind fun n =>
      if (n : Int) ≤ int64Max then some (n : Int) else none

/-- `secureRandomInt`: `crypto/rand.Int(rand.Reader, max)` returns a
uniform integer in `[0, max)` or fails when the entropy source fails.
The entropy source is modelled as an oracle `Except String Nat`; on
success the library's contract (result `< max` for `max > 0`) is captured
by reducing the raw entropy value modulo `max`. -/
def secureRandomInt (entropy : Except String Nat) (mx : Nat) : Except String Nat :=
  match entropy with
  | .error e => .error e
  | .ok n => .ok (n % mx)

/-- `prepareFormData`: always maps `submit`, `token` and `build_server`;
adds `build_server_id` only when the harvested string is non-empty and
parses via `strconv.Atoi`; when at least one radio option was harvested,
draws a secure random index and maps `radio0[radio]` to the option at
that index; a secure-random failure aborts with a wrapped error. -/
def prepareFormData (entropy : Except String Nat)
    (buildServer buildServerId token submitValue : String)
    (radioOptions : List String) : Except GoErr (List (String × GoValue)) :=
  let formData : List (String × GoValue) :=
    [("submit", .str submitValue), ("token", .str token), ("build_server", .str buildServer)]
  let formData :=
    if buildServerId ≠ "" then
      match goAtoi buildServerId with
      | some id => formData ++ [("build_server_id", .int id)]
      | none => formData
    else formData
  if 0 < radioOptions.length then
    match secureRandomInt entropy radioOptions.length with
    | .error e => .error (.wrap "failed to generate secure random number" (.randErr e))
    | .ok idx => .ok (formData ++ [("radio0[radio]", .str (radioOptions.getD idx ""))])
  else
    .ok formData

/-- Abstraction of the goquery document built from the initial effect
page: the four `value` attributes harvested by id (a missing attribute
yields `""` since the code discards the `exists` flag), plus the ordered
`value` attributes of the `radio0[radio]` inputs that carry one. -/
structure PageDoc where
  buildServer : String
  buildServerId : String
  token : String
  submitValue : String
  radioOptions : List String
deriving DecidableEq, Repr

/-- `fetchInitialPage`: network and HTML parsing are one oracle producing
the joined cookie string and the harvested `PageDoc`; on success the
assembled form data is stored on the client, a `prepareFormData` failure
is wrapped with `failed to prepare form data`. -/
def fetchInitialPage (net : Except String (String × PageDoc))
    (entropy : Except String Nat) (p : Photo360) :
    Except GoErr (String × Photo360) :=
  match net with
  | .error e => .error (.net e)
  | .ok (cookieString, doc) =>
    match prepareFormData entropy doc.buildServer doc.buildServerId
        doc.token doc.submitValue doc.radioOptions with
    | .error e => .error (.wrap "failed to prepare form data" e)
    | .ok formData => .ok (cookieString, { p with FormData := formData })

/-- Abstraction of the goquery document built from the submission
response: the text contents of `#form_value` and `#form_value_input`
(`Text()` yields `""` for an absent element) and their `value`
attributes (`none` when the attribute is absent, `some v` — possibly
`some ""` — when present). -/
structure ResponseDoc where
  formValueText : String
  formValueInputText : String
  formValueAttr : Option String
  formValueInputAttr : Option String
deriving DecidableEq, Repr

/-- `extractGeneratedFormValue`: trimmed text of `#form_value`, else
trimmed text of `#form_value_input`, else — when both texts are blank —
the `value` attribute of `#form_value` if it EXISTS (its value is taken
even when empty, and `#form_value_input` is then never consulted), else
the `value` attribute of `#form_value_input` if it exists, else `""`. -/
def extractGeneratedFormValue (d : ResponseDoc) : String :=
  let fv := goTrimSpace d.formValueText
  let fv := if fv = "" then goTrimSpace d.formValueInputText else fv
  if fv = "" then
    match d.formValueAttr with
    | some v => v
    | none =>
      match d.formValueInputAttr with
      | some v => v
      | none => ""
  else fv

/-- The multipart body written by `submitFormData`: every assembled form
field rendered with `%v`, followed by one `text[]` field per text input
in order. (Writes into the in-memory buffer cannot fail; Go's map
iteration order is fixed here to insertion order.) -/
def submitBody (p : Photo360) : List (String × String) :=
  p.FormData.map (fun kv => (kv.1, goFmtValue kv.2))
    ++ p.InputText.map (fun t => ("text[]", t))

def noGeneratedValueMsg : String := "no generated form value found"

/-- `submitFormData`: POST the multipart body (network modelled as an
oracle from the sent body to the parsed response document), then extract
the generated form value; an empty extraction is the explicit
`no generated form value found` error. -/
def submitFormData (net : List (String × String) → Except String ResponseDoc)
    (p : Photo360) : Except GoErr String :=
  match net (submitBody p) with
  | .error e => .error (.net e)
  | .ok doc =>
    let generatedFormValue := extractGeneratedFormValue doc
    if generatedFormValue = "" then .error (.msg noGeneratedValueMsg)
    else .ok generatedFormValue

def singleInputMsg : String := "please try using a URL that requires 1 input field"

/-- The url-encoded body POSTed to `/effect/create-image`: the decoded
fields, `radio0[radio]` only when non-empty, one `text[]` per text. -/
def buildCreateImageBody (fd : FormDataValues) : List (String × String) :=
  [("id", fd.ID), ("token", fd.Token), ("build_server", fd.BuildServer),
   ("build_server_id", fd.BuildServerID)]
    ++ (if fd.Radio0.Radio ≠ "" then [("radio0[radio]", fd.Radio0.Radio)] else [])
    ++ fd.Text.map (fun t => ("text[]", t))

/-- Round-half-to-even to an integer: the rounding Go's `%.0f`
formatting applies (`strconv.FormatFloat` rounds to nearest, ties to
even). Float64 values are modelled exactly as rationals. -/
def roundHalfEven (q : ℚ) : ℤ :=
  if q - (⌊q⌋ : ℚ) < 1 / 2 then ⌊q⌋
  else if 1 / 2 < q - (⌊q⌋ : ℚ) then ⌊q⌋ + 1
  else if ⌊q⌋ % 2 = 0 then ⌊q⌋ else ⌊q⌋ + 1

/-- `fmt.Sprintf("%.0f", v)`: the float rounded half-to-even to an
integer, rendered in decimal. The sign is taken from the float, so a
negative value that rounds to zero prints `"-0"` (as Go's
`strconv.FormatFloat` does); a negative-zero float itself has no
distinct rational representative, which only that boundary point of the
model depends on. -/
def goFmtFloat0 (q : ℚ) : String :=
  if q < 0 ∧ roundHalfEven q = 0 then "-0"
  else toString (roundHalfEven q)

/-- The `session_id` normalization switch in `createImage`: strings pass
unchanged, float64 renders via `%.0f`, int via `%d`, anything else via
`%v`. -/
def normalizeSessionID : JsonSessionID → String
  | .str v => v
  | .float v => goFmtFloat0 v
  | .int v => toString v
  | .other rendered => rendered

/-- The image-URL assembly in `createImage`: start from the decoded
build-server string; append `image` when non-empty, otherwise append
`fullsize_image` when non-empty. -/
def buildImageURL (fd : FormDataValues) (resp : ImageCreationResponse) : String :=
  if resp.Image ≠ "" then fd.BuildServer ++ resp.Image
  else if resp.FullsizeImage ≠ "" then fd.BuildServer ++ resp.FullsizeImage
  else fd.BuildServer

/-- `createImage`: decode the generated form value (`json.Unmarshal`
modelled as an oracle; any failure becomes the fixed single-input
message and nothing is sent), POST the assembled body, decode the JSON
response (a failure here surfaces the json error itself), and build the
result. The second component records whether the HTTP request was
sent. -/
def createImage (decodeFDV : String → Except String FormDataValues)
    (decodeResp : String → Except String ImageCreationResponse)
    (net : List (String × String) → Except String String)
    (generatedFormValue : String) :
    Except GoErr Photo360Result × Bool :=
  match decodeFDV generatedFormValue with
  | .error _ => (.error (.msg singleInputMsg), false)
  | .ok imageCreationData =>
    match net (buildCreateImageBody imageCreationData) with
    | .error e => (.error (.net e), true)
    | .ok body =>
      match decodeResp body with
      | .error e => (.error (.jsonErr e), true)
      | .ok imageResponse =>
        (.ok { Status := imageResponse.Success
               ImageURL := buildImageURL imageCreationData imageResponse
               SessionID := normalizeSessionID imageResponse.SessionID }, true)

/-- The pipeline stages of `Execute`. -/
inductive Stage where
  | fetchStage
  | submitStage
  | createStage
deriving DecidableEq, Repr

/-- All external collaborators of one `Execute` run. -/
structure ExecEnv where
  fetchNet : Except String (String × PageDoc)
  entropy : Except String Nat
  submitNet : List (String × String) → Except String ResponseDoc
  createNet : List (String × String) → Except String String
  decodeFDV : String → Except String FormDataValues
  decodeResp : String → Except String ImageCreationResponse

/-- `Execute`: the three stages in strict sequence, each failure
aborting the rest; the second component records which stages ran. -/
def Execute (env : ExecEnv) (p : Photo360) :
    Except GoErr Photo360Result × List Stage :=
  match fetchInitialPage env.fetchNet env.entropy p with
  | .error e => (.error e, [.fetchStage])
  | .ok (_cookies, p1) =>
    match submitFormData env.submitNet p1 with
    | .error e => (.error e, [.fetchStage, .submitStage])
    | .ok generatedFormValue =>
      ((createImage env.decodeFDV env.decodeResp env.createNet
          generatedFormValue).1,
       [.fetchStage, .submitStage, .createStage])

/-- The client produced by `NewPhoto360 ""`. -/
def defaultClient : Photo360 :=
  { EffectPageURL := defaultEffectPageURL, InputText := ["Faris"], FormData := [] }

/-- A submission-response document whose two text locations are blank,
whose primary `value` attribute is present but empty, and whose
secondary `value` attribute carries a value. -/
def presentEmptyAttrDoc : ResponseDoc :=
  { formValueText := "", formValueInputText := "",
    formValueAttr := some "", formValueInputAttr := some "x" }

/-- A submission-response document where only the secondary marker's
`value` attribute is populated and the primary attribute is absent. -/
def onlyInputAttrDoc : ResponseDoc :=
  { formValueText := " ", formValueInputText := "",
    formValueAttr := none, formValueInputAttr := some "x" }

/-- A decoded generated-form value with build server `"s"`. -/
def bothPathsFD : FormDataValues :=
  { ID := "", Token := "", BuildServer := "s", BuildServerID := "",
    Radio0 := { Radio := "" }, Text := [] }

/-- An image-creation response carrying both a default (`"a"`) and a
full-size (`"b"`) image path. -/
def bothPathsResp : ImageCreationResponse :=
  { Success := true, Image := "a", FullsizeImage := "b", SessionID := .str "sid" }

/-- An effect page with no harvested fields and no radio options. -/
def emptyPageDoc : PageDoc :=
  { buildServer := "", buildServerId := "", token := "", submitValue := "",
    radioOptions := [] }

/-- A submission response with all four extraction locations empty or
absent. -/
def emptyResponseDoc : ResponseDoc :=
  { formValueText := "", formValueInputText := "",
    formValueAttr := none, formValueInputAttr := none }

/-- An execution environment whose fetch succeeds on `emptyPageDoc` and
whose submission response is `emptyResponseDoc`. -/
def stubEnv : ExecEnv :=
  { fetchNet := .ok ("", emptyPageDoc)
    entropy := .ok 0
    submitNet := fun _ => .ok emptyResponseDoc
    createNet := fun _ => .error "unreachable"
    decodeFDV := fun _ => .error "unreachable"
    decodeResp := fun _ => .error "unreachable" }

/-- The client state after `stubEnv`'s fetch stage stores the assembled
form data on `defaultClient`. -/
def stubClient1 : Photo360 :=
  { EffectPageURL := defaultEffectPageURL, InputText := ["Faris"],
    FormData := [("submit", .str ""), ("token", .str ""), ("build_server", .str "")] }

/-- C9: for every client state and every string `x`, `SetName` leaves the
text-input list exactly `[x]`; and for every prior state and every list
of names, `SetNames` leaves the text-input list equal to that list in
order, wholly replacing whatever list was there before. -/
theorem setters_replace_input_list :
    (∀ (p : Photo360) (x : String), (SetName p x).InputText = [x])
    ∧ (∀ (p : Photo360) (names : List String), (SetNames p names).InputText = names) :=
  ⟨fun _ _ => rfl, fun _ _ => rfl⟩

/-- C7: every URL containing `photo360.com` makes `NewPhoto360` succeed;
every non-empty URL lacking it fails with the invalid-URL error; the
empty string succeeds and the resulting client's effect page URL is the
documented default effect URL. -/
theorem newPhoto360_url_validation (s : String) :
    (goContains s "photo360.com" = true → ∃ c, NewPhoto360 s = .ok c)
    ∧ (s ≠ "" → goContains s "photo360.com" = false →
        NewPhoto360 s = .error (.msg invalidURLMsg))
    ∧ NewPhoto360 "" = .ok defaultClient
    ∧ defaultClient.EffectPageURL = defaultEffectPageURL := by
  refine ⟨?_, ?_, by decide, rfl⟩
  · intro h
    have hs : s ≠ "" := by
      intro hs
      subst hs
      exact absurd h (by decide)
    exact ⟨{ EffectPageURL := s, InputText := ["Faris"], FormData := [] },
      by simp [NewPhoto360, hs, h]⟩
  · intro hs h
    simp [NewPhoto360, hs, h]

/-- Witness for C7 at the concrete URLs `https://vi.photo360.com/x`
(accepted) and `https://example.com/test` (rejected). -/
theorem newPhoto360_url_validation_witness :
    (goContains "https://vi.photo360.com/x" "photo360.com" = true
      ∧ ∃ c, NewPhoto360 "https://vi.photo360.com/x" = .ok c)
    ∧ ("https://example.com/test" : String) ≠ ""
    ∧ goContains "https://example.com/test" "photo360.com" = false
    ∧ NewPhoto360 "https://example.com/test" = .error (.msg invalidURLMsg) :=
  ⟨⟨by decide, (newPhoto360_url_validation "https://vi.photo360.com/x").1 (by decide)⟩,
   by decide, by decide,
   (newPhoto360_url_validation "https://example.com/test").2.1 (by decide) (by decide)⟩

/-- C8 counterexample: applying the multi-set operation with the empty
list to the freshly constructed client leaves an empty text-input list,
so the list does not remain non-empty after every application of the
multi-set operation. -/
theorem textInput_nonempty_counterexample :
    NewPhoto360 "" = .ok defaultClient
    ∧ (SetNames defaultClient []).InputText = [] :=
  ⟨by decide, rfl⟩

/-- C8 (amended): the text-input list is non-empty after construction and
after every application of the single-set operation, and the multi-set
operation preserves non-emptiness exactly when the list it is given is
non-empty. -/
theorem textInput_nonempty_amended (s : String) (c : Photo360)
    (h : NewPhoto360 s = .ok c) :
    c.InputText ≠ []
    ∧ (∀ (p : Photo360) (x : String), (SetName p x).InputText ≠ [])
    ∧ (∀ (p : Photo360) (names : List String), names ≠ [] →
        (SetNames p names).InputText ≠ []) := by
  refine ⟨?_, fun p x => by simp [SetName], fun p names hn => by simpa [SetNames] using hn⟩
  simp only [NewPhoto360] at h
  by_cases hg :
      goContains (if s = "" then defaultEffectPageURL else s) "photo360.com" = true
  · rw [if_pos hg] at h
    cases h
    simp
  · rw [if_neg hg] at h
    cases h

/-- Witness for C8 (amended) at the default construction. -/
theorem textInput_nonempty_amended_witness :
    defaultClient.InputText ≠ []
    ∧ (SetNames defaultClient ["a", "b"]).InputText ≠ [] :=
  ⟨(textInput_nonempty_amended "" defaultClient (by decide)).1,
   (textInput_nonempty_amended "" defaultClient (by decide)).2.2
     defaultClient ["a", "b"] (by decide)⟩

/-- C6: the session-identifier normalization maps an integer `42` to
`"42"`, an integral float `42.0` to `"42"` with no decimal point, a
string `"abc"` to `"abc"` unchanged, and any other dynamic type to its
natural `%v` rendering. -/
theorem sessionID_normalization :
    normalizeSessionID (.int 42) = "42"
    ∧ normalizeSessionID (.float 42) = "42"
    ∧ (¬ goContains (normalizeSessionID (.float 42)) "." = true)
    ∧ normalizeSessionID (.str "abc") = "abc"
    ∧ ∀ rendered, normalizeSessionID (.other rendered) = rendered := by
  have h42 : normalizeSessionID (.float 42) = "42" := by
    show goFmtFloat0 42 = "42"
    norm_num [goFmtFloat0, roundHalfEven]
    decide
  refine ⟨by decide, h42, ?_, rfl, fun _ => rfl⟩
  rw [h42]
  decide

/-- Half-to-even rounding lands on an integer within distance `1/2` of
the argument (i.e. on a nearest integer). -/
theorem roundHalfEven_dist (q : ℚ) : |(roundHalfEven q : ℚ) - q| ≤ 1 / 2 := by
  have h0 : (⌊q⌋ : ℚ) ≤ q := Int.floor_le q
  have h1 : q < ⌊q⌋ + 1 := Int.lt_floor_add_one q
  unfold roundHalfEven
  split
  · rename_i hlt
    rw [abs_le]
    exact ⟨by linarith, by linarith⟩
  · rename_i hge
    split
    · rename_i hgt
      rw [abs_le]
      push_cast
      exact ⟨by linarith, by linarith⟩
    · rename_i hle
      split
      · rw [abs_le]
        exact ⟨by linarith, by linarith⟩
      · rw [abs_le]
        push_cast
        exact ⟨by linarith, by linarith⟩

/-- C10: for every non-integral float session identifier, the normalized
display string is the value formatted with zero fractional digits: the
decimal rendering of an integer at distance at most `1/2` from the value
(a nearest integer, itself distinct from the non-integral value), in the
sign-preserving `"-0"` form when a negative value rounds to zero;
concretely `42.7` normalizes to `"43"`, never `"42.7"`. -/
theorem float_sessionID_rounded (q : ℚ) (h : Int.fract q ≠ 0) :
    (∃ z : ℤ, |(z : ℚ) - q| ≤ 1 / 2 ∧ (z : ℚ) ≠ q
      ∧ (normalizeSessionID (.float q) = toString z
         ∨ (q < 0 ∧ z = 0 ∧ normalizeSessionID (.float q) = "-0")))
    ∧ normalizeSessionID (.float (427 / 10)) = "43"
    ∧ normalizeSessionID (.float (427 / 10)) ≠ "42.7" := by
  have h437 : normalizeSessionID (.float (427 / 10)) = "43" := by
    show goFmtFloat0 (427 / 10) = "43"
    norm_num [goFmtFloat0, roundHalfEven]
    decide
  have hne : ((roundHalfEven q : ℚ)) ≠ q := by
    intro hz
    apply h
    rw [← hz, Int.fract_intCast]
  refine ⟨⟨roundHalfEven q, roundHalfEven_dist q, hne, ?_⟩, h437, ?_⟩
  · by_cases hneg : q < 0 ∧ roundHalfEven q = 0
    · exact Or.inr ⟨hneg.1, hneg.2,
        by show goFmtFloat0 q = "-0"; rw [goFmtFloat0, if_pos hneg]⟩
    · exact Or.inl (by show goFmtFloat0 q = _; rw [goFmtFloat0, if_neg hneg])
  · rw [h437]
    decide

/-- Witness for C10 at `q = 42.7`. -/
theorem float_sessionID_rounded_witness :
    Int.fract ((427 : ℚ) / 10) ≠ 0
    ∧ normalizeSessionID (.float (427 / 10)) = "43" :=
  ⟨by norm_num [Int.fract],
   (float_sessionID_rounded (427 / 10) (by norm_num [Int.fract])).2.1⟩

/-- C4: whenever the generated form value fails to decode as JSON of the
expected shape, the image-creation stage fails with the distinguished
single-input-required message (a condition distinct by construction from
the json library's own decode errors) and sends no HTTP request. -/
theorem createImage_singleInput
    (decodeFDV : String → Except String FormDataValues)
    (decodeResp : String → Except String ImageCreationResponse)
    (net : List (String × String) → Except String String)
    (generatedFormValue e : String)
    (h : decodeFDV generatedFormValue = .error e) :
    createImage decodeFDV decodeResp net generatedFormValue
      = (.error (.msg singleInputMsg), false)
    ∧ ∀ m, GoErr.msg singleInputMsg ≠ GoErr.jsonErr m := by
  refine ⟨?_, fun m => by simp⟩
  unfold createImage
  rw [h]

/-- Witness for C4: a decoder that rejects its input makes the stage
fail with the single-input message and no request. -/
theorem createImage_singleInput_witness :
    createImage (fun _ => .error "invalid character") (fun _ => .error "x")
      (fun _ => .error "x") "garbage"
      = (.error (.msg singleInputMsg), false) :=
  (createImage_singleInput (fun _ => .error "invalid character")
    (fun _ => .error "x") (fun _ => .error "x") "garbage" "invalid character" rfl).1

/-- C2 counterexample: with both text locations blank, the primary
marker's `value` attribute present but EMPTY and the secondary marker's
`value` attribute populated with `"x"`, the extraction returns `""`
rather than the first non-empty result `"x"`: a later location is not
consulted even though every earlier location was empty. -/
theorem extraction_order_counterexample :
    presentEmptyAttrDoc.formValueText = ""
    ∧ presentEmptyAttrDoc.formValueInputText = ""
    ∧ presentEmptyAttrDoc.formValueAttr = some ""
    ∧ presentEmptyAttrDoc.formValueInputAttr = some "x"
    ∧ extractGeneratedFormValue presentEmptyAttrDoc = ""
    ∧ extractGeneratedFormValue presentEmptyAttrDoc ≠ "x" := by
  refine ⟨rfl, rfl, rfl, rfl, by decide, by decide⟩

/-- C2 (amended): the extraction inspects the four locations in the
fixed order (a) primary text, (b) secondary text, (c) primary `value`
attribute, (d) secondary `value` attribute; the two text locations are
passed over when blank, but at location (c) mere PRESENCE of the
attribute ends the search with its value even when that value is empty;
location (d) is consulted only when both texts are blank and (c)'s
attribute is absent, and when only location (d) is populated (and (c)
absent) its value is returned unchanged. -/
theorem extraction_order_amended (d : ResponseDoc) :
    (goTrimSpace d.formValueText ≠ "" →
      extractGeneratedFormValue d = goTrimSpace d.formValueText)
    ∧ (goTrimSpace d.formValueText = "" → goTrimSpace d.formValueInputText ≠ "" →
      extractGeneratedFormValue d = goTrimSpace d.formValueInputText)
    ∧ (∀ v, goTrimSpace d.formValueText = "" → goTrimSpace d.formValueInputText = "" →
      d.formValueAttr = some v → extractGeneratedFormValue d = v)
    ∧ (∀ v, goTrimSpace d.formValueText = "" → goTrimSpace d.formValueInputText = "" →
      d.formValueAttr = none → d.formValueInputAttr = some v →
      extractGeneratedFormValue d = v)
    ∧ (goTrimSpace d.formValueText = "" → goTrimSpace d.formValueInputText = "" →
      d.formValueAttr = none → d.formValueInputAttr = none →
      extractGeneratedFormValue d = "") := by
  unfold extractGeneratedFormValue
  refine ⟨fun h1 => ?_, fun h1 h2 => ?_, fun v h1 h2 h3 => ?_,
    fun v h1 h2 h3 h4 => ?_, fun h1 h2 h3 h4 => ?_⟩
  all_goals simp_all

/-- Witness for C2 (amended): only the secondary marker's `value`
attribute is populated and the primary attribute is absent, so its value
is returned unchanged. -/
theorem extraction_order_amended_witness :
    extractGeneratedFormValue onlyInputAttrDoc = "x" :=
  (extraction_order_amended onlyInputAttrDoc).2.2.2.1 "x" (by decide) (by decide) rfl rfl

/-- C5: when the submission response yields no non-empty value at any of
the four extraction locations, the form-submission stage fails with the
explicit `no generated form value found` error and the pipeline aborts
without ever invoking the image-creation stage. -/
theorem execute_missingGeneratedValue (env : ExecEnv) (p : Photo360)
    (cookies : String) (p1 : Photo360) (doc : ResponseDoc)
    (hfetch : fetchInitialPage env.fetchNet env.entropy p = .ok (cookies, p1))
    (hnet : env.submitNet (submitBody p1) = .ok doc)
    (hext : extractGeneratedFormValue doc = "") :
    Execute env p = (.error (.msg noGeneratedValueMsg), [.fetchStage, .submitStage])
    ∧ Stage.createStage ∉ (Execute env p).2 := by
  have hsub : submitFormData env.submitNet p1 = .error (.msg noGeneratedValueMsg) := by
    simp [submitFormData, hnet, hext]
  have hex : Execute env p
      = (.error (.msg noGeneratedValueMsg), [.fetchStage, .submitStage]) := by
    simp [Execute, hfetch, hsub]
  exact ⟨hex, by rw [hex]; decide⟩

/-- Witness for C5: a stub environment whose submission response has all
four locations empty aborts with the explicit error after the submit
stage. -/
theorem execute_missingGeneratedValue_witness :
    Execute stubEnv defaultClient
      = (.error (.msg noGeneratedValueMsg), [.fetchStage, .submitStage])
    ∧ Stage.createStage ∉ (Execute stubEnv defaultClient).2 :=
  execute_missingGeneratedValue stubEnv defaultClient "" stubClient1
    emptyResponseDoc (by decide) rfl (by decide)

/-- C1 counterexample: with build server `"s"`, default image path `"a"`
and full-size path `"b"` both non-empty, the image-creation stage
produces image URL `"sa"` — the DEFAULT path is chosen, not the
full-size path the claim requires. -/
theorem imageURL_counterexample :
    bothPathsResp.Image ≠ ""
    ∧ bothPathsResp.FullsizeImage ≠ ""
    ∧ createImage (fun _ => .ok bothPathsFD) (fun _ => .ok bothPathsResp)
        (fun _ => .ok "") "gv"
      = (.ok { Status := true, ImageURL := "sa", SessionID := "sid" }, true)
    ∧ ("sa" : String) ≠ bothPathsFD.BuildServer ++ bothPathsResp.FullsizeImage := by
  refine ⟨by decide, by decide, by decide, by decide⟩

/-- C1 (amended): for every decoded generated-form value and every
image-creation JSON response, the result's image URL is the build-server
string concatenated with the chosen image path, where the DEFAULT path
field wins whenever it is non-empty and the full-size path is used only
when the default is empty (both empty leaves the bare build-server
string). -/
theorem imageURL_amended
    (decodeFDV : String → Except String FormDataValues)
    (decodeResp : String → Except String ImageCreationResponse)
    (net : List (String × String) → Except String String)
    (generatedFormValue body : String)
    (fd : FormDataValues) (resp : ImageCreationResponse)
    (h1 : decodeFDV generatedFormValue = .ok fd)
    (h2 : net (buildCreateImageBody fd) = .ok body)
    (h3 : decodeResp body = .ok resp) :
    ∃ r, createImage decodeFDV decodeResp net generatedFormValue = (.ok r, true)
      ∧ r.ImageURL
        = fd.BuildServer
          ++ (if resp.Image ≠ "" then resp.Image else resp.FullsizeImage) := by
  simp only [createImage, h1, h2, h3]
  refine ⟨_, rfl, ?_⟩
  show buildImageURL fd resp = _
  unfold buildImageURL
  by_cases hi : resp.Image = "" <;> by_cases hf : resp.FullsizeImage = "" <;>
    simp [hi, hf]

/-- Witness for C1 (amended) at the concrete stubs: both paths present,
the default one `"a"` is appended. -/
theorem imageURL_amended_witness :
    ∃ r, createImage (fun _ => .ok bothPathsFD) (fun _ => .ok bothPathsResp)
        (fun _ => .ok "") "gv" = (.ok r, true)
      ∧ r.ImageURL
        = bothPathsFD.BuildServer
          ++ (if bothPathsResp.Image ≠ "" then bothPathsResp.Image
              else bothPathsResp.FullsizeImage) :=
  imageURL_amended (fun _ => .ok bothPathsFD) (fun _ => .ok bothPathsResp)
    (fun _ => .ok "") "gv" "" bothPathsFD bothPathsResp rfl rfl rfl

/-- The option-independent part of the assembled form data: the three
unconditional fields plus the build-server id entry exactly when the
harvested string parses. -/
def baseFields (buildServer buildServerId token submitValue : String) :
    List (String × GoValue) :=
  [("submit", .str submitValue), ("token", .str token),
   ("build_server", .str buildServer)]
    ++ (match goAtoi buildServerId with
        | some id => [("build_server_id", GoValue.int id)]
        | none => [])

theorem prepareFormData_radioNil (entropy : Except String Nat)
    (buildServer buildServerId token submitValue : String) :
    prepareFormData entropy buildServer buildServerId token submitValue []
      = .ok (baseFields buildServer buildServerId token submitValue) := by
  unfold prepareFormData baseFields
  by_cases hid : buildServerId = ""
  · subst hid
    have hA : goAtoi "" = none := rfl
    rw [hA]
    simp
  · simp only [ne_eq, hid, not_false_iff, if_true]
    cases hA : goAtoi buildServerId <;> simp [hA]

theorem prepareFormData_radioErr (s : String)
    (buildServer buildServerId token submitValue : String)
    (o : String) (os : List String) :
    prepareFormData (.error s) buildServer buildServerId token submitValue (o :: os)
      = .error (.wrap "failed to generate secure random number" (.randErr s)) := by
  unfold prepareFormData secureRandomInt
  by_cases hid : buildServerId = ""
  · subst hid
    simp
  · simp only [ne_eq, hid, not_false_iff, if_true]
    cases hA : goAtoi buildServerId <;> simp [hA]

theorem prepareFormData_radioOk (n : Nat)
    (buildServer buildServerId token submitValue : String)
    (o : String) (os : List String) :
    prepareFormData (.ok n) buildServer buildServerId token submitValue (o :: os)
      = .ok (baseFields buildServer buildServerId token submitValue
          ++ [("radio0[radio]",
               .str ((o :: os).getD (n % (o :: os).length) ""))]) := by
  unfold prepareFormData secureRandomInt baseFields
  by_cases hid : buildServerId = ""
  · subst hid
    have hA : goAtoi "" = none := rfl
    rw [hA]
    simp
  · simp only [ne_eq, hid, not_false_iff, if_true]
    cases hA : goAtoi buildServerId <;> simp [hA]

theorem baseFields_mem (buildServer buildServerId token submitValue : String) :
    ("submit", GoValue.str submitValue)
        ∈ baseFields buildServer buildServerId token submitValue
    ∧ ("token", GoValue.str token)
        ∈ baseFields buildServer buildServerId token submitValue
    ∧ ("build_server", GoValue.str buildServer)
        ∈ baseFields buildServer buildServerId token submitValue := by
  unfold baseFields
  cases goAtoi buildServerId <;> simp

theorem baseFields_id_iff (buildServer buildServerId token submitValue : String) :
    (∃ v, ("build_server_id", v)
        ∈ baseFields buildServer buildServerId token submitValue)
      ↔ (goAtoi buildServerId).isSome = true := by
  unfold baseFields
  cases goAtoi buildServerId <;> simp

theorem baseFields_filter_radio
    (buildServer buildServerId token submitValue : String) :
    (baseFields buildServer buildServerId token submitValue).filter
        (fun kv => kv.1 == "radio0[radio]") = [] := by
  unfold baseFields
  cases goAtoi buildServerId <;> simp

/-- C3: for all harvested inputs and every outcome of the random source,
the assembled submission mapping always carries the submit marker, the
token and the build-server string; it carries a build-server id entry
iff the harvested id string parses as an integer; a non-empty option
list contributes exactly one chosen option, an element of the list; and
the assembly fails exactly when options exist and secure random
generation fails — the stage's only fatal condition. -/
theorem prepareFormData_assembly (entropy : Except String Nat)
    (buildServer buildServerId token submitValue : String)
    (radioOptions : List String) :
    ((∃ e, prepareFormData entropy buildServer buildServerId token submitValue
        radioOptions = .error e)
      ↔ (radioOptions ≠ [] ∧ ∃ s, entropy = .error s))
    ∧ (∀ fm, prepareFormData entropy buildServer buildServerId token submitValue
        radioOptions = .ok fm →
        ("submit", GoValue.str submitValue) ∈ fm
        ∧ ("token", GoValue.str token) ∈ fm
        ∧ ("build_server", GoValue.str buildServer) ∈ fm
        ∧ ((∃ v, ("build_server_id", v) ∈ fm) ↔ (goAtoi buildServerId).isSome = true)
        ∧ (radioOptions ≠ [] → ∃ v, v ∈ radioOptions
            ∧ fm.filter (fun kv => kv.1 == "radio0[radio]")
              = [("radio0[radio]", GoValue.str v)])
        ∧ (radioOptions = [] →
            fm.filter (fun kv => kv.1 == "radio0[radio]") = [])) := by
  obtain ⟨hs, ht, hb⟩ := baseFields_mem buildServer buildServerId token submitValue
  rcases radioOptions with _ | ⟨o, os⟩
  · rw [prepareFormData_radioNil]
    refine ⟨by simp, ?_⟩
    intro fm hfm
    cases hfm
    refine ⟨hs, ht, hb, baseFields_id_iff .., ?_, fun _ => baseFields_filter_radio ..⟩
    intro hcon
    exact absurd rfl hcon
  · rcases entropy with s | n
    · rw [prepareFormData_radioErr]
      refine ⟨by simp, ?_⟩
      intro fm hfm
      cases hfm
    · rw [prepareFormData_radioOk]
      refine ⟨by simp, ?_⟩
      intro fm hfm
      cases hfm
      have hlen : n % (o :: os).length < (o :: os).length :=
        Nat.mod_lt _ (by simp)
      refine ⟨by simp [hs], by simp [ht], by simp [hb], ?_, ?_, by simp⟩
      · constructor
        · rintro ⟨v, hv⟩
          rw [List.mem_append] at hv
          rcases hv with hv | hv
          · exact (baseFields_id_iff ..).mp ⟨v, hv⟩
          · simp at hv
        · intro hsome
          obtain ⟨v, hv⟩ := (baseFields_id_iff ..).mpr hsome
          exact ⟨v, List.mem_append_left _ hv⟩
      · intro _
        refine ⟨(o :: os).getD (n % (o :: os).length) "", ?_, ?_⟩
        · rw [List.getD_eq_getElem _ _ hlen]
          exact List.getElem_mem hlen
        · rw [List.filter_append, baseFields_filter_radio]
          simp

/-- Witness for C3 at concrete harvested fields: id `"7"` parses, the
randomly chosen option (entropy value 5 over three options) is `"r3"`,
and the mapping carries the three unconditional fields. -/
theorem prepareFormData_assembly_witness :
    ("submit", GoValue.str "S")
      ∈ [("submit", GoValue.str "S"), ("token", GoValue.str "T"),
         ("build_server", GoValue.str "B"), ("build_server_id", GoValue.int 7),
         ("radio0[radio]", GoValue.str "r3")]
    ∧ (∃ v, v ∈ ["r1", "r2", "r3"]
        ∧ ([("submit", GoValue.str "S"), ("token", GoValue.str "T"),
            ("build_server", GoValue.str "B"), ("build_server_id", GoValue.int 7),
            ("radio0[radio]", GoValue.str "r3")]).filter
            (fun kv => kv.1 == "radio0[radio]")
          = [("radio0[radio]", GoValue.str v)]) := by
  have h := (prepareFormData_assembly (.ok 5) "B" "7" "T" "S" ["r1", "r2", "r3"]).2
    [("submit", GoValue.str "S"), ("token", GoValue.str "T"),
     ("build_server", GoValue.str "B"), ("build_server_id", GoValue.int 7),
     ("radio0[radio]", GoValue.str "r3")] (by decide)
  exact ⟨h.1, h.2.2.2.2.1 (by decide)⟩

end Photo360Spec
